import Mathlib

/-!
Verification of the sandboxed remote command-execution engine: a shallow
embedding of the server terminal handler (Docker-backed container execution,
the simulated fallback shell, and the per-session dispatch) and of the
trusted local proxy (server/local-proxy.js), together with theorems settling
the specified properties of those components.
-/

namespace Spec2Proof

/-- Boolean substring test on character lists, the semantics of JavaScript
String.prototype.includes. -/
def listIncludes (needle : List Char) : List Char → Bool
  | [] => needle.isEmpty
  | c :: rest => needle.isPrefixOf (c :: rest) || listIncludes needle rest

/-- JavaScript s.includes(sub). -/
def includesStr (s sub : String) : Bool := listIncludes sub.data s.data

/-- JavaScript s.startsWith(p). -/
def startsWithStr (s p : String) : Bool := p.data.isPrefixOf s.data

/-- JavaScript s.endsWith(p). -/
def strEndsWith (s p : String) : Bool := p.data.isSuffixOf s.data

/-- JavaScript s.trim(): strip leading and trailing whitespace. -/
def jsTrim (s : String) : String :=
  String.mk (((s.data.dropWhile Char.isWhitespace).reverse.dropWhile Char.isWhitespace).reverse)

/-- JavaScript s.substring(n): keep the characters from index n on. -/
def strDrop (s : String) (n : Nat) : String := String.mk (s.data.drop n)

/-! ## Trusted Local Proxy (server/local-proxy.js) -/

/-- The localhost middleware (local-proxy.js lines 13-20): the request is
passed on exactly when the Host header contains "localhost" or "127.0.0.1"
as a substring. -/
def hostAllowed (host : String) : Bool :=
  includesStr host "localhost" || includesStr host "127.0.0.1"

/-- What the host s child_process.exec call would produce for the spawned
command: captured standard output, captured standard error, and the error
message of the exec callback (none when the process exits cleanly). -/
structure ExecOutcome where
  stdout : String
  stderr : String
  spawnErr : Option String
deriving DecidableEq

/-- Response of the proxy to one POST /exec request: either a denial with an
HTTP status and an error message (no process spawned), or the JSON body
of a completed spawn attempt. -/
inductive ProxyResponse where
  | denied (status : Nat) (errMsg : String)
  | execResult (output : String) (error : Option String)
deriving DecidableEq

/-- HTTP status of a proxy response. -/
def ProxyResponse.statusOf : ProxyResponse → Nat
  | .denied s _ => s
  | .execResult _ _ => 200

/-- Whether a process was spawned to produce this response. -/
def ProxyResponse.spawned : ProxyResponse → Bool
  | .denied _ _ => false
  | .execResult _ _ => true

/-- The POST /exec handler composed with the localhost middleware
(local-proxy.js lines 13-43). `command` is the command field of the parsed
JSON body (`none` when absent); `outcome` is what the host exec call would
produce were it reached. The JavaScript truthiness test `!command` is false
for the empty string as well, and `stdout || stderr || 'Command executed
(no output)'` picks the first non-empty alternative. -/
def handleExecRequest (host : String) (command : Option String) (outcome : ExecOutcome) :
    ProxyResponse :=
  if hostAllowed host then
    match command with
    | none => .denied 400 "Command is required"
    | some c =>
      if c = "" then .denied 400 "Command is required"
      else if includesStr c "rm -rf" || includesStr c "sudo" then
        .denied 403 "Potentially dangerous command rejected"
      else
        .execResult
          (if outcome.stdout ≠ "" then outcome.stdout
           else if outcome.stderr ≠ "" then outcome.stderr
           else "Command executed (no output)")
          outcome.spawnErr
  else .denied 403 "Access denied - only localhost is allowed"

/-- Follows the spec s words, for comparison with `hostAllowed`: a Host
header indicates the loopback address when it is localhost or 127.0.0.1,
optionally followed by a port. -/
def specHostIsLoopback (host : String) : Bool :=
  host = "localhost" || host = "127.0.0.1" ||
  startsWithStr host "localhost:" || startsWithStr host "127.0.0.1:"

/-- Follows the spec s words, for comparison with the output field built by
`handleExecRequest`: "combined standard-output/standard-error text". -/
def specCombinedOutput (o : ExecOutcome) : String := o.stdout ++ o.stderr

/-! ## Simulated Shell (terminal handler, executeCommandSimulated) -/

/-- A quote character of the regex character class: single or double quote. -/
def isQuoteChar (c : Char) : Bool := c = Char.ofNat 39 || c = Char.ofNat 34

/-- Right parenthesis character. -/
def rparChar : Char := Char.ofNat 41

/-- Double quote character. -/
def dquoteChar : Char := Char.ofNat 34

/-- Try to match, at the head of the input, the tail of the regular
expression pattern used by the simulated shell after its fixed literal:
an opening quote, one or more characters that are not quotes, a closing
quote (either kind), then a right parenthesis. Returns the capture.
Greedy matching with this character class cannot backtrack successfully,
so the capture is exactly the maximal quote-free run. -/
def quotedArgHere (cs : List Char) : Option String :=
  match cs with
  | [] => none
  | q :: rest =>
    if isQuoteChar q then
      let cap := rest.takeWhile (fun c => !isQuoteChar c)
      match rest.drop cap.length with
      | q2 :: r2 :: _ =>
        if cap ≠ [] && isQuoteChar q2 && r2 = rparChar then some (String.mk cap) else none
      | _ => none
    else none

/-- Try to match, at the head of the input, one or more non-double-quote
characters followed by a closing double quote (the tail of the pattern
python3 "([^"]+)"). Returns the capture. -/
def dquotedArgHere (cs : List Char) : Option String :=
  let cap := cs.takeWhile (fun c => c ≠ dquoteChar)
  match cs.drop cap.length with
  | q :: _ => if cap ≠ [] && q = dquoteChar then some (String.mk cap) else none
  | [] => none

/-- Scan the input left to right for the first position where the literal
occurs and the tail matcher succeeds right after it — the semantics of a
JavaScript String.prototype.match whose regex starts with that literal. -/
def scanFor (here : List Char → Option String) (lit : List Char) : List Char → Option String
  | [] => none
  | c :: rest =>
    if lit.isPrefixOf (c :: rest) then
      match here ((c :: rest).drop lit.length) with
      | some s => some s
      | none => scanFor here lit rest
    else scanFor here lit rest

/-- command.match of the console.log quoted-literal regex: capture group 1,
or none when there is no match. -/
def matchConsoleLog (command : String) : Option String :=
  scanFor quotedArgHere "console.log(".data command.data

/-- command.match of the print quoted-literal regex: capture group 1, or
none when there is no match. -/
def matchPrint (command : String) : Option String :=
  scanFor quotedArgHere "print(".data command.data

/-- command.match of the double-quoted python3 file regex: capture group 1
(the file name), or none when there is no match. -/
def matchPython3File (command : String) : Option String :=
  scanFor dquotedArgHere ("python3 " ++ String.mk [dquoteChar]).data command.data

/-- The yellow banner frame the simulated shell sends first. -/
def simBanner (command : String) : String :=
  "\x1b[33mSimulating: " ++ command ++ "\x1b[0m\r\n"

/-- The fixed not-recognized message for an unknown command. -/
def simNotRecognized (command : String) : String :=
  "\x1b[31mCommand not recognized in simulation mode: " ++ command ++ "\x1b[0m\r\n"

/-- The fixed hint that the sandbox runtime is unavailable. -/
def simTip : String :=
  "\x1b[33mTip: Docker is not available. The terminal is in simulation mode with limited functionality.\x1b[0m\r\n"

/-- The prompt frame appended after every response cycle. -/
def promptFrame : String := "\r\n$ "

/-- The branch of the simulated shell handling a command starting with
"node ": pattern-based interpretation of an inline console.log call. -/
def simNodeBranch (command : String) : List String :=
  if includesStr command "console.log" then
    match matchConsoleLog command with
    | some s => [s ++ "\r\n"]
    | none => ["undefined\r\n"]
  else ["Program executed successfully.\r\n"]

/-- The branch of the simulated shell handling a command starting with
"python " or "python3 ": inline -c print extraction, double-quoted file
execution, or the generic success line. -/
def simPythonBranch (command : String) : List String :=
  if includesStr command "-c" && includesStr command "print" then
    match matchPrint command with
    | some s => [s ++ "\r\n"]
    | none => ["None\r\n"]
  else
    match matchPython3File command with
    | some filename =>
      if filename ≠ "" then
        ["Executing Python file: " ++ filename ++ "\r\n"] ++
        (if strEndsWith filename ".py" then
          (if filename = "new.py" then ["hello world\r\n"]
           else ["Python script executed successfully.\r\n"])
         else ["\x1b[31mError: " ++ filename ++ " is not a Python file\x1b[0m\r\n"])
      else ["\x1b[31mError: Invalid Python file path\x1b[0m\r\n"]
    | none => ["Python command executed successfully.\r\n"]

/-- The body frames of executeCommandSimulated: the if/else-if dispatch
chain over the trimmed command, between the banner and the prompt. -/
def simulatedBody (command : String) : List String :=
  if command = "node -v" then ["v16.15.0\r\n"]
  else if command = "python --version" ∨ command = "python -V" ∨ command = "python3 --version" then
    ["Python 3.9.13\r\n"]
  else if startsWithStr command "echo" then [jsTrim (strDrop command 4) ++ "\r\n"]
  else if command = "ls" ∨ command = "ls -la" then
    ["total 24\r\n",
     "drwxr-xr-x  6 user  staff  192 Apr 15 12:34 .\r\n",
     "drwxr-xr-x  4 user  staff  128 Apr 15 12:34 ..\r\n",
     "-rw-r--r--  1 user  staff  284 Apr 15 12:34 index.js\r\n",
     "-rw-r--r--  1 user  staff  123 Apr 15 12:34 package.json\r\n",
     "drwxr-xr-x  4 user  staff  128 Apr 15 12:34 node_modules\r\n"]
  else if command = "pwd" then ["/workspace\r\n"]
  else if startsWithStr command "node " then simNodeBranch command
  else if startsWithStr command "python " ∨ startsWithStr command "python3 " then
    simPythonBranch command
  else [simNotRecognized command, simTip]

/-- All frames executeCommandSimulated sends for one command: the banner,
the dispatch-table body, then the prompt. -/
def executeCommandSimulated (command : String) : List String :=
  simBanner command :: simulatedBody command ++ [promptFrame]

/-- The disjunction of the guards of the recognized branches of the
simulated shell s dispatch chain; a command on which this is false reaches
the final else branch. -/
def simRecognized (command : String) : Bool :=
  command = "node -v" || command = "python --version" || command = "python -V" ||
  command = "python3 --version" || startsWithStr command "echo" ||
  command = "ls" || command = "ls -la" || command = "pwd" ||
  startsWithStr command "node " || startsWithStr command "python " ||
  startsWithStr command "python3 "

/-! ## Container Execution Engine (terminal handler, runCommandInContainer)

Each awaited Docker API call is modelled by a field of `DockerEnv` giving
the outcome that call would have; the engine function records, in order,
the calls it makes and the frames it sends. -/

/-- An error object thrown by a dockerode API call: its statusCode (404 for
image-not-found) and its message. -/
structure DockerError where
  statusCode : Option Nat
  message : String
deriving DecidableEq

/-- One demultiplexed chunk of the exec stream: a standard-output piece or
a standard-error piece. -/
inductive Chunk where
  | stdout (s : String)
  | stderr (s : String)
deriving DecidableEq

/-- Outcomes of the Docker API calls the engine can make during one
Execution Request. On success, execStart yields the demultiplexed stream
chunks. The stopContainer outcome is never consulted by the engine result:
the cleanup catch swallows stop failures. -/
structure DockerEnv where
  inspectImage : Except DockerError Unit
  pullImage : Except DockerError Unit
  createContainer : Except DockerError String
  startContainer : Except DockerError Unit
  execCreate : Except DockerError Unit
  execStart : Except DockerError (List Chunk)
  execInspect : Except DockerError Int
  stopContainer : Except DockerError Unit

/-- The Docker API calls, in the order the engine issues them. -/
inductive DockerCall where
  | inspectImage
  | pull
  | create
  | start
  | execCreate
  | execStart
  | execInspect
  | stop
deriving DecidableEq

/-- One outbound frame: either engine-generated text (banners, notices,
error lines, prompts) or a forwarded payload chunk, exactly as sent. -/
inductive Frame where
  | ctrl (s : String)
  | fwd (s : String)
deriving DecidableEq

/-- What one run of the engine produced: the outbound frames in order and
the Docker calls in order. -/
structure RunResult where
  frames : List Frame
  calls : List DockerCall
deriving DecidableEq

/-- Wrap a string in the red ANSI marker, as the engine does for every
standard-error chunk. -/
def redWrap (s : String) : String := "\x1b[31m" ++ s ++ "\x1b[0m"

/-- How a demultiplexed chunk is forwarded to the session: standard-output
verbatim, standard-error wrapped in the red marker. -/
def forwardChunk : Chunk → String
  | .stdout s => s
  | .stderr s => redWrap s

/-- The yellow banner sent at the start of a containerized execution. -/
def runBanner (image command : String) : String :=
  "\x1b[33mRunning in " ++ image ++ ": " ++ command ++ "\x1b[0m\r\n"

/-- The cyan notice sent before an image pull. -/
def pullingNotice (image : String) : String :=
  "\x1b[36mPulling image " ++ image ++ " (this might take a moment)...\x1b[0m\r\n"

/-- The cyan notice sent after a successful image pull. -/
def pulledNotice (image : String) : String :=
  "\x1b[36mImage " ++ image ++ " pulled.\x1b[0m\r\n"

/-- The single frame the catch block sends for an execution error: the red
error line directly followed by the prompt, in one frame. -/
def errorFrame (msg : String) : String :=
  "\r\n\x1b[31mError: " ++ msg ++ "\x1b[0m\r\n$ "

/-- The create/start/exec/stream phase of runCommandInContainer, relative
to the frames and calls already produced by image resolution. On any throw
the catch block sends the error frame and, because by then the container
was created (except on the create throw itself), attempts exactly one stop
whose own failure is swallowed. On stream end the exec instance is
inspected for its exit code (logged only, failures swallowed) and the
prompt frame is sent; no stop is issued on this path. -/
def runFromCreate (env : DockerEnv) : RunResult :=
  match env.createContainer with
  | .error e => ⟨[Frame.ctrl (errorFrame e.message)], [DockerCall.create]⟩
  | .ok _ =>
    match env.startContainer with
    | .error e =>
      ⟨[Frame.ctrl (errorFrame e.message)],
       [DockerCall.create, DockerCall.start, DockerCall.stop]⟩
    | .ok _ =>
      match env.execCreate with
      | .error e =>
        ⟨[Frame.ctrl (errorFrame e.message)],
         [DockerCall.create, DockerCall.start, DockerCall.execCreate, DockerCall.stop]⟩
      | .ok _ =>
        match env.execStart with
        | .error e =>
          ⟨[Frame.ctrl (errorFrame e.message)],
           [DockerCall.create, DockerCall.start, DockerCall.execCreate, DockerCall.execStart,
            DockerCall.stop]⟩
        | .ok chunks =>
          ⟨chunks.map (fun ch => Frame.fwd (forwardChunk ch)) ++ [Frame.ctrl promptFrame],
           [DockerCall.create, DockerCall.start, DockerCall.execCreate, DockerCall.execStart,
            DockerCall.execInspect]⟩

/-- runCommandInContainer: banner, image resolution (pull exactly on a 404
inspect error, aborting on any other inspect error), then the create/exec
phase. -/
def runCommandInContainer (env : DockerEnv) (command image : String) : RunResult :=
  match env.inspectImage with
  | .ok _ =>
    ⟨Frame.ctrl (runBanner image command) :: (runFromCreate env).frames,
     DockerCall.inspectImage :: (runFromCreate env).calls⟩
  | .error e =>
    if e.statusCode = some 404 then
      match env.pullImage with
      | .ok _ =>
        ⟨Frame.ctrl (runBanner image command) :: Frame.ctrl (pullingNotice image) ::
           Frame.ctrl (pulledNotice image) :: (runFromCreate env).frames,
         DockerCall.inspectImage :: DockerCall.pull :: (runFromCreate env).calls⟩
      | .error pe =>
        ⟨[Frame.ctrl (runBanner image command), Frame.ctrl (pullingNotice image),
          Frame.ctrl (errorFrame pe.message)],
         [DockerCall.inspectImage, DockerCall.pull]⟩
    else
      ⟨[Frame.ctrl (runBanner image command), Frame.ctrl (errorFrame e.message)],
       [DockerCall.inspectImage]⟩

/-! ## Session Protocol Handler (terminal handler, handleTerminalConnection) -/

/-- What one message-handler invocation produced: the outbound frames and
the Docker calls made on behalf of this message. -/
structure SessionResult where
  frames : List Frame
  dockerCalls : List DockerCall
deriving DecidableEq

/-- The per-message dispatch of handleTerminalConnection: trim the inbound
frame; on empty input send only a fresh prompt; otherwise run in a
container when the runtime availability flag is true, else simulate. -/
def handleMessage (isDockerAvailable : Bool) (env : DockerEnv) (message : String) :
    SessionResult :=
  if jsTrim message = "" then ⟨[Frame.ctrl promptFrame], []⟩
  else if isDockerAvailable then
    ⟨(runCommandInContainer env (jsTrim message) "node:alpine").frames,
     (runCommandInContainer env (jsTrim message) "node:alpine").calls⟩
  else ⟨(executeCommandSimulated (jsTrim message)).map Frame.ctrl, []⟩

/-- Effects of one connection-level event handler: frames sent, Docker
calls made, log lines written. -/
structure HandlerEffects where
  frames : List Frame
  dockerCalls : List DockerCall
  logs : List String
deriving DecidableEq

/-- The session close handler (ws.on close): its entire body is one log
call — it sends nothing and makes no container-runtime call. -/
def onCloseHandler : HandlerEffects :=
  ⟨[], [], ["Terminal WebSocket closed."]⟩

/-! ## Runtime Availability Flag (isDockerAvailable) -/

/-- Events that can touch or read the process-wide availability flag. -/
inductive FlagEvent where
  | probeSucceeded
  | probeFailed
  | messageReceived (s : String)
  | transportClosed
deriving DecidableEq

/-- The write sites of isDockerAvailable in the source: it starts false;
the only assignment anywhere is in the ping success callback, which sets
it true; the ping failure callback and all session handlers never write
it. -/
def flagStep (flag : Bool) : FlagEvent → Bool
  | .probeSucceeded => true
  | _ => flag

/-- The flag after a sequence of events, starting from its initializer
false. -/
def flagAfter (events : List FlagEvent) : Bool := events.foldl flagStep false

/-- Whether an event is the startup probe resolving. -/
def isProbeEvent : FlagEvent → Bool
  | .probeSucceeded => true
  | .probeFailed => true
  | _ => false

/-- The startup sequence performs exactly one probe (one docker.ping call
at module initialization), succeeding or failing. -/
def startupEvents (pingOk : Bool) : List FlagEvent :=
  [if pingOk then FlagEvent.probeSucceeded else FlagEvent.probeFailed]

/-- A run in which every Docker call succeeds: the image is present, the
container starts, and the exec stream delivers one stdout chunk. -/
def allOkEnv : DockerEnv :=
  ⟨Except.ok (), Except.ok (), Except.ok "a1b2c3d4e5f6", Except.ok (), Except.ok (),
   Except.ok [Chunk.stdout "hi\r\n"], Except.ok 0, Except.ok ()⟩

/-- A run in which container start throws after the container was
created. -/
def startFailEnv : DockerEnv :=
  ⟨Except.ok (), Except.ok (), Except.ok "a1b2c3d4e5f6",
   Except.error ⟨none, "start failed"⟩, Except.ok (), Except.ok [], Except.ok 0,
   Except.ok ()⟩

/-- Like startFailEnv, but the cleanup stop itself also throws (the
container is already gone). -/
def stopFailEnv : DockerEnv :=
  ⟨Except.ok (), Except.ok (), Except.ok "a1b2c3d4e5f6",
   Except.error ⟨none, "start failed"⟩, Except.ok (), Except.ok [], Except.ok 0,
   Except.error ⟨some 404, "no such container"⟩⟩

/-- A fully successful run whose exec stream delivers one stdout chunk and
one stderr chunk. -/
def mixedEnv : DockerEnv :=
  ⟨Except.ok (), Except.ok (), Except.ok "a1b2c3d4e5f6", Except.ok (), Except.ok (),
   Except.ok [Chunk.stdout "hi\r\n", Chunk.stderr "oops\r\n"], Except.ok 0, Except.ok ()⟩

/-! ## Prompt framing -/

/-- Whether a frame is a prompt-terminated frame: engine text ending with
the prompt string. Forwarded payload chunks are data, not prompt frames. -/
def endsWithPrompt : Frame → Bool
  | .ctrl s => strEndsWith s promptFrame
  | .fwd _ => false

/-- How many frames of a response cycle are prompt-terminated. -/
def promptFrameCount (fs : List Frame) : Nat := (fs.filter endsWithPrompt).length

/-- Whether the final frame of a response cycle is prompt-terminated. -/
def lastIsPrompt (fs : List Frame) : Bool := ((fs.getLast?).map endsWithPrompt).getD false

/-! ## Theorems -/

/-- A command that the blocklist rejects is in particular non-empty. -/
theorem ne_empty_of_includes (c sub : String) (hsub : sub ≠ "")
    (h : includesStr c sub = true) : c ≠ "" := by
  rintro rfl
  apply hsub
  have : sub.data.isEmpty = true := by
    simpa [includesStr, listIncludes] using h
  cases hd : sub.data with
  | nil => cases sub with
    | mk l => simpa [hd] using congrArg String.mk hd.symm ▸ rfl
  | cons a l => rw [hd] at this; simp [List.isEmpty] at this

/-- C3 counterexample: the Host header "localhost.attacker.com" does not
denote the loopback address, yet the proxy passes the middleware (its check
is a substring test) and spawns the command, answering 200 rather than
403. -/
theorem c3_host_counterexample :
    specHostIsLoopback "localhost.attacker.com" = false ∧
    (handleExecRequest "localhost.attacker.com" (some "ls") ⟨"files", "", none⟩).statusOf = 200 ∧
    (handleExecRequest "localhost.attacker.com" (some "ls") ⟨"files", "", none⟩).spawned = true := by
  decide

/-- C3 (amended): for every POST /exec request, if the command contains
"rm -rf" or "sudo" as a substring, or the Host header does not contain
"localhost" or "127.0.0.1" as a substring, the proxy responds 403 and no
process is spawned. -/
theorem c3_amended_reject (host c : String) (outcome : ExecOutcome)
    (h : hostAllowed host = false ∨ includesStr c "rm -rf" = true ∨ includesStr c "sudo" = true) :
    (handleExecRequest host (some c) outcome).statusOf = 403 ∧
    (handleExecRequest host (some c) outcome).spawned = false := by
  unfold handleExecRequest
  rcases h with h | h | h
  · simp [h, ProxyResponse.statusOf, ProxyResponse.spawned]
  · have hc : c ≠ "" := ne_empty_of_includes c "rm -rf" (by decide) h
    cases hh : hostAllowed host with
    | false => simp [ProxyResponse.statusOf, ProxyResponse.spawned]
    | true => simp [hc, h, ProxyResponse.statusOf, ProxyResponse.spawned]
  · have hc : c ≠ "" := ne_empty_of_includes c "sudo" (by decide) h
    cases hh : hostAllowed host with
    | false => simp [ProxyResponse.statusOf, ProxyResponse.spawned]
    | true => simp [hc, h, ProxyResponse.statusOf, ProxyResponse.spawned]

/-- Witness for c3_amended_reject at a concrete request. -/
theorem c3_amended_reject_witness :
    (handleExecRequest "localhost" (some "sudo ls") ⟨"", "", none⟩).statusOf = 403 ∧
    (handleExecRequest "localhost" (some "sudo ls") ⟨"", "", none⟩).spawned = false :=
  c3_amended_reject "localhost" "sudo ls" ⟨"", "", none⟩ (Or.inr (Or.inr (by decide)))

/-- C7 counterexample: when the spawned process writes to both channels
(stdout "out", stderr "err"), the proxy returns only the standard-output
text; the standard-error text is not part of the output field at all, so
the output is not the combined standard-output/standard-error text. -/
theorem c7_output_counterexample :
    handleExecRequest "localhost" (some "ls") ⟨"out", "err", none⟩ =
      ProxyResponse.execResult "out" none ∧
    ("out" : String) ≠ specCombinedOutput ⟨"out", "err", none⟩ ∧
    includesStr "out" "err" = false := by
  decide

/-- C7 (amended): for every POST /exec request passing the loopback and
blocklist checks with a non-empty command, the proxy answers 200 with an
output field equal to the standard-output text if non-empty, otherwise the
standard-error text, otherwise the fixed placeholder, and an error field
equal to the spawn error message or null; a request with a missing command
is answered 400 without spawning. -/
theorem c7_amended_exec (host c : String) (o : ExecOutcome)
    (hh : hostAllowed host = true) (hc : c ≠ "")
    (hb : (includesStr c "rm -rf" || includesStr c "sudo") = false) :
    handleExecRequest host (some c) o =
      ProxyResponse.execResult
        (if o.stdout ≠ "" then o.stdout
         else if o.stderr ≠ "" then o.stderr
         else "Command executed (no output)") o.spawnErr ∧
    handleExecRequest host none o = ProxyResponse.denied 400 "Command is required" ∧
    (handleExecRequest host none o).spawned = false := by
  unfold handleExecRequest
  simp [hh, hc, hb, ProxyResponse.spawned]

/-- Witness for c7_amended_exec at a concrete request. -/
theorem c7_amended_exec_witness :
    handleExecRequest "localhost" (some "ls") ⟨"a", "b", some "boom"⟩ =
      ProxyResponse.execResult "a" (some "boom") := by
  have h := (c7_amended_exec "localhost" "ls" ⟨"a", "b", some "boom"⟩
    (by decide) (by decide) (by decide)).1
  exact h.trans (by decide)

/-- C10: the loopback check is a substring test: the Host header
"localhost.attacker.com" does not denote the loopback address but contains
"localhost" as a substring, and the middleware accepts the request and
forwards it to command execution (a process is spawned, status 200). -/
theorem c10_substring_host_check :
    hostAllowed "localhost.attacker.com" = true ∧
    specHostIsLoopback "localhost.attacker.com" = false ∧
    (handleExecRequest "localhost.attacker.com" (some "echo hi") ⟨"hi", "", none⟩).spawned = true ∧
    (handleExecRequest "localhost.attacker.com" (some "echo hi") ⟨"hi", "", none⟩).statusOf = 200 := by
  decide

/-- Appending p to any string yields a string ending with a string that
itself ends with p. -/
theorem strEndsWith_append_right (x y p : String) (hy : strEndsWith y p = true) :
    strEndsWith (x ++ y) p = true := by
  rw [strEndsWith] at hy ⊢
  rw [String.data_append]
  exact List.isSuffixOf_iff_suffix.mpr
    ((List.isSuffixOf_iff_suffix.mp hy).trans (List.suffix_append _ _))

/-- Any string ending with the line terminator does not end with the
prompt string. -/
theorem not_prompt_of_endsWith_rn (s : String) (h : strEndsWith s "\r\n" = true) :
    strEndsWith s promptFrame = false := by
  cases hp : strEndsWith s promptFrame with
  | false => rfl
  | true =>
    exfalso
    have h1 : ("\r\n" : String).data <:+ s.data := List.isSuffixOf_iff_suffix.mp h
    have h2 : promptFrame.data <:+ s.data := List.isSuffixOf_iff_suffix.mp hp
    rcases List.suffix_or_suffix_of_suffix h1 h2 with hc | hc
    · exact absurd hc (by decide)
    · exact absurd hc (by decide)

/-- Appending the line terminator yields a string ending with it. -/
theorem endsWith_rn_rn (x : String) : strEndsWith (x ++ "\r\n") "\r\n" = true :=
  strEndsWith_append_right x "\r\n" "\r\n" (by decide)

/-- C1 (the code evaluated at the failing input): on a fully successful
containerized execution the engine issues no stop at all — the cleanup
stop exists only on the error path, where it happens exactly once, and a
failing stop (container already gone) is swallowed without changing the
outcome. The claim asserts one stop on the success path as well; the code
performs zero. -/
theorem c1_success_path_no_stop :
    (runCommandInContainer allOkEnv "echo hi" "node:alpine").calls.count DockerCall.stop = 0 ∧
    (runCommandInContainer startFailEnv "echo hi" "node:alpine").calls.count DockerCall.stop = 1 ∧
    runCommandInContainer stopFailEnv "echo hi" "node:alpine" =
      runCommandInContainer startFailEnv "echo hi" "node:alpine" := by
  refine ⟨by decide, by decide, by decide⟩

/-- C2 (the code evaluated at the failing input): the transport close
handler performs no container-runtime call and sends nothing (it only
logs), so closing the transport while a successful execution is in flight
triggers no cleanup: the combined call sequence of the in-flight request
and the close handler contains no stop at all. -/
theorem c2_close_triggers_no_cleanup :
    onCloseHandler.dockerCalls = [] ∧
    onCloseHandler.frames = [] ∧
    ((runCommandInContainer allOkEnv "sleep 100" "node:alpine").calls ++
      onCloseHandler.dockerCalls).count DockerCall.stop = 0 := by
  refine ⟨rfl, rfl, by decide⟩

/-- The create/exec phase never pulls an image. -/
theorem pull_not_mem_runFromCreate (env : DockerEnv) :
    DockerCall.pull ∉ (runFromCreate env).calls := by
  obtain ⟨ii, pi, cc, sc, ec, es, xi, st⟩ := env
  cases cc <;> cases sc <;> cases ec <;> cases es <;> simp [runFromCreate]

/-- C4: an image pull happens if and only if the image inspect call fails
with statusCode 404; any other inspect error aborts the request without
pulling and without creating a container. -/
theorem c4_pull_iff_404 (env : DockerEnv) (c i : String) :
    (DockerCall.pull ∈ (runCommandInContainer env c i).calls ↔
      ∃ e, env.inspectImage = Except.error e ∧ e.statusCode = some 404) ∧
    (∀ e, env.inspectImage = Except.error e → e.statusCode ≠ some 404 →
      DockerCall.pull ∉ (runCommandInContainer env c i).calls ∧
      DockerCall.create ∉ (runCommandInContainer env c i).calls) := by
  constructor
  · constructor
    · intro hmem
      cases hi : env.inspectImage with
      | ok u =>
        exfalso
        unfold runCommandInContainer at hmem
        simp [hi] at hmem
        exact pull_not_mem_runFromCreate env hmem
      | error e =>
        by_cases h4 : e.statusCode = some 404
        · exact ⟨e, rfl, h4⟩
        · exfalso
          unfold runCommandInContainer at hmem
          simp [hi, h4] at hmem
    · rintro ⟨e, he, h4⟩
      unfold runCommandInContainer
      cases hp : env.pullImage with
      | ok u => simp [he, h4, hp]
      | error pe => simp [he, h4, hp]
  · intro e he h4
    unfold runCommandInContainer
    constructor <;> simp [he, h4]

/-- Witness for c4_pull_iff_404: an environment whose inspect call fails
with a 404 makes the engine pull. -/
theorem c4_pull_iff_404_witness :
    DockerCall.pull ∈ (runCommandInContainer
      ⟨Except.error ⟨some 404, "no such image"⟩, Except.ok (), Except.ok "a1b2c3d4e5f6",
       Except.ok (), Except.ok (), Except.ok [], Except.ok 0, Except.ok ()⟩
      "echo hi" "node:alpine").calls :=
  (c4_pull_iff_404
    ⟨Except.error ⟨some 404, "no such image"⟩, Except.ok (), Except.ok "a1b2c3d4e5f6",
     Except.ok (), Except.ok (), Except.ok [], Except.ok 0, Except.ok ()⟩
    "echo hi" "node:alpine").1.mpr ⟨⟨some 404, "no such image"⟩, rfl, rfl⟩

/-- C9: on every execution that reaches the exec stream, the demultiplexed
chunks are forwarded in order with every standard-error chunk wrapped in
the red ANSI marker and every standard-output chunk verbatim. -/
theorem c9_stderr_wrapped (env : DockerEnv) (c i : String) (chunks : List Chunk)
    (hres : env.inspectImage = Except.ok () ∨
      ((∃ e, env.inspectImage = Except.error e ∧ e.statusCode = some 404) ∧
        env.pullImage = Except.ok ()))
    (hcc : ∃ id, env.createContainer = Except.ok id)
    (hsc : env.startContainer = Except.ok ())
    (hec : env.execCreate = Except.ok ())
    (hes : env.execStart = Except.ok chunks) :
    (∃ pre, (runCommandInContainer env c i).frames =
      pre ++ chunks.map (fun ch => Frame.fwd (forwardChunk ch)) ++ [Frame.ctrl promptFrame]) ∧
    (∀ s, forwardChunk (Chunk.stderr s) = "\x1b[31m" ++ s ++ "\x1b[0m") ∧
    (∀ s, forwardChunk (Chunk.stdout s) = s) := by
  refine ⟨?_, fun s => rfl, fun s => rfl⟩
  obtain ⟨id, hcc⟩ := hcc
  have hrfc : (runFromCreate env).frames =
      chunks.map (fun ch => Frame.fwd (forwardChunk ch)) ++ [Frame.ctrl promptFrame] := by
    unfold runFromCreate
    simp [hcc, hsc, hec, hes]
  rcases hres with hok | ⟨⟨e, he, h4⟩, hp⟩
  · refine ⟨[Frame.ctrl (runBanner i c)], ?_⟩
    unfold runCommandInContainer
    simp [hok, hrfc]
  · refine ⟨[Frame.ctrl (runBanner i c), Frame.ctrl (pullingNotice i),
      Frame.ctrl (pulledNotice i)], ?_⟩
    unfold runCommandInContainer
    simp [he, h4, hp, hrfc]

/-- Witness for c9_stderr_wrapped on a stream with one chunk of each
kind. -/
theorem c9_stderr_wrapped_witness :
    ∃ pre, (runCommandInContainer mixedEnv "mycmd" "node:alpine").frames =
      pre ++ [Chunk.stdout "hi\r\n", Chunk.stderr "oops\r\n"].map
        (fun ch => Frame.fwd (forwardChunk ch)) ++ [Frame.ctrl promptFrame] :=
  (c9_stderr_wrapped mixedEnv "mycmd" "node:alpine"
    [Chunk.stdout "hi\r\n", Chunk.stderr "oops\r\n"]
    (Or.inl rfl) ⟨"a1b2c3d4e5f6", rfl⟩ rfl rfl rfl).1

/-- Folding the flag over events that are not probe events leaves it
unchanged: no handler other than the probe callback writes the flag. -/
theorem flagAfter_const (f : Bool) (rest : List FlagEvent)
    (h : ∀ e ∈ rest, isProbeEvent e = false) :
    List.foldl flagStep f rest = f := by
  induction rest generalizing f with
  | nil => rfl
  | cons e es ih =>
    have he := h e (by simp)
    have hstep : flagStep f e = f := by
      cases e <;> simp [flagStep, isProbeEvent] at he ⊢
    rw [List.foldl_cons, hstep]
    exact ih f (fun x hx => h x (by simp [hx]))

/-- Every containerized execution begins with the image inspect call. -/
theorem inspect_mem_calls (env : DockerEnv) (c i : String) :
    DockerCall.inspectImage ∈ (runCommandInContainer env c i).calls := by
  cases hi : env.inspectImage with
  | ok u =>
    unfold runCommandInContainer
    simp [hi]
  | error e =>
    by_cases h4 : e.statusCode = some 404
    · cases hp : env.pullImage with
      | ok u => unfold runCommandInContainer; simp [hi, h4, hp]
      | error pe => unfold runCommandInContainer; simp [hi, h4, hp]
    · unfold runCommandInContainer; simp [hi, h4]

/-- C8: the availability flag starts false, is written only by the single
startup probe (the only event that can make it true), never changes on any
later session event, and every non-empty command dispatch reads it: with
the flag false no Docker call is made, with the flag true the request goes
to the container engine (its inspect call is issued). -/
theorem c8_flag_set_once (b : Bool) (rest : List FlagEvent) (env : DockerEnv) (msg : String)
    (hrest : ∀ e ∈ rest, isProbeEvent e = false) :
    flagAfter (startupEvents b ++ rest) = b ∧
    (∀ e, flagStep true e = true) ∧
    (∀ f e, flagStep f e = true → f = true ∨ e = FlagEvent.probeSucceeded) ∧
    (jsTrim msg ≠ "" →
      (handleMessage false env msg).dockerCalls = [] ∧
      DockerCall.inspectImage ∈ (handleMessage true env msg).dockerCalls) := by
  refine ⟨?_, ?_, ?_, ?_⟩
  · rw [flagAfter, startupEvents]
    cases b with
    | false =>
      rw [List.cons_append, List.foldl_cons]
      exact flagAfter_const _ rest hrest
    | true =>
      rw [List.cons_append, List.foldl_cons]
      exact flagAfter_const _ rest hrest
  · intro e; cases e <;> rfl
  · intro f e hf
    cases e with
    | probeSucceeded => exact Or.inr rfl
    | probeFailed => exact Or.inl hf
    | messageReceived s => exact Or.inl hf
    | transportClosed => exact Or.inl hf
  · intro hm
    constructor
    · simp [handleMessage, hm]
    · have : (handleMessage true env msg).dockerCalls =
          (runCommandInContainer env (jsTrim msg) "node:alpine").calls := by
        simp [handleMessage, hm]
      rw [this]
      exact inspect_mem_calls env (jsTrim msg) "node:alpine"

/-- Witness for c8_flag_set_once on a concrete post-startup event list and
a concrete command. -/
theorem c8_flag_set_once_witness :
    flagAfter (startupEvents true ++
      [FlagEvent.messageReceived "ls", FlagEvent.transportClosed]) = true ∧
    (handleMessage false allOkEnv "ls").dockerCalls = [] :=
  ⟨(c8_flag_set_once true [FlagEvent.messageReceived "ls", FlagEvent.transportClosed]
      allOkEnv "ls" (by decide)).1,
   ((c8_flag_set_once true [FlagEvent.messageReceived "ls", FlagEvent.transportClosed]
      allOkEnv "ls" (by decide)).2.2.2 (by decide)).1⟩

/-- C5: with the availability flag false, every non-empty command is
answered entirely by the simulated shell — no Docker call is made and the
frames are exactly those of the fixed dispatch table — and a command
matching none of the recognized branches yields the banner, the
not-recognized message, the runtime-unavailable hint, and the prompt. -/
theorem c5_simulated_dispatch (env : DockerEnv) (msg : String) (h : jsTrim msg ≠ "") :
    (handleMessage false env msg).dockerCalls = [] ∧
    (handleMessage false env msg).frames =
      (executeCommandSimulated (jsTrim msg)).map Frame.ctrl ∧
    (simRecognized (jsTrim msg) = false →
      executeCommandSimulated (jsTrim msg) =
        [simBanner (jsTrim msg), simNotRecognized (jsTrim msg), simTip, promptFrame]) := by
  refine ⟨?_, ?_, ?_⟩
  · simp [handleMessage, h]
  · simp [handleMessage, h]
  · intro hr
    rw [simRecognized] at hr
    simp only [Bool.or_eq_false_iff] at hr
    obtain ⟨⟨⟨⟨⟨⟨⟨⟨⟨⟨h1, h2⟩, h3⟩, h4⟩, h5⟩, h6⟩, h7⟩, h8⟩, h9⟩, h10⟩, h11⟩ := hr
    rw [decide_eq_false_iff_not] at h1 h2 h3 h4 h6 h7 h8
    have hbody : simulatedBody (jsTrim msg) = [simNotRecognized (jsTrim msg), simTip] := by
      rw [simulatedBody]
      rw [if_neg h1]
      rw [if_neg (fun hor => hor.elim h2 (fun hor2 => hor2.elim h3 h4))]
      rw [if_neg (by simp [h5])]
      rw [if_neg (fun hor => hor.elim h6 h7)]
      rw [if_neg h8]
      rw [if_neg (by simp [h9])]
      rw [if_neg (by simp [h10, h11])]
    rw [executeCommandSimulated, hbody]
    rfl

/-- Witness for c5_simulated_dispatch on the unrecognized command
foobar. -/
theorem c5_simulated_dispatch_witness :
    (handleMessage false allOkEnv "foobar").dockerCalls = [] ∧
    executeCommandSimulated (jsTrim "foobar") =
      [simBanner (jsTrim "foobar"), simNotRecognized (jsTrim "foobar"), simTip, promptFrame] :=
  ⟨(c5_simulated_dispatch allOkEnv "foobar" (by decide)).1,
   (c5_simulated_dispatch allOkEnv "foobar" (by decide)).2.2 (by decide)⟩

/-- Every frame of the simulated node branch ends with the line
terminator. -/
theorem simNodeBranch_rn (command : String) :
    ∀ s ∈ simNodeBranch command, strEndsWith s "\r\n" = true := by
  intro s hs
  unfold simNodeBranch at hs
  split at hs
  · split at hs
    · simp at hs; subst hs; exact endsWith_rn_rn _
    · simp at hs; subst hs; decide
  · simp at hs; subst hs; decide

/-- Every frame of the simulated python branch ends with the line
terminator. -/
theorem simPythonBranch_rn (command : String) :
    ∀ s ∈ simPythonBranch command, strEndsWith s "\r\n" = true := by
  intro s hs
  unfold simPythonBranch at hs
  split at hs
  · split at hs
    · simp at hs; subst hs; exact endsWith_rn_rn _
    · simp at hs; subst hs; decide
  · split at hs
    · split at hs
      · rcases List.mem_append.mp hs with hs | hs
        · simp at hs; subst hs; exact endsWith_rn_rn _
        · split at hs
          · split at hs
            · simp at hs; subst hs; decide
            · simp at hs; subst hs; decide
          · simp at hs; subst hs
            exact strEndsWith_append_right _ _ _ (by decide)
      · simp at hs; subst hs; decide
    · simp at hs; subst hs; decide

/-- Every frame of the simulated dispatch body ends with the line
terminator. -/
theorem simulatedBody_rn (command : String) :
    ∀ s ∈ simulatedBody command, strEndsWith s "\r\n" = true := by
  intro s hs
  unfold simulatedBody at hs
  split at hs
  · simp at hs; subst hs; decide
  · split at hs
    · simp at hs; subst hs; decide
    · split at hs
      · simp at hs; subst hs; exact endsWith_rn_rn _
      · split at hs
        · simp at hs
          rcases hs with h|h|h|h|h|h <;> subst h <;> decide
        · split at hs
          · simp at hs; subst hs; decide
          · split at hs
            · exact simNodeBranch_rn command s hs
            · split at hs
              · exact simPythonBranch_rn command s hs
              · simp at hs
                rcases hs with h|h <;> subst h
                · rw [simNotRecognized]
                  exact strEndsWith_append_right _ _ _ (by decide)
                · decide

/-- Engine text frames ending with the line terminator are not prompt
frames. -/
theorem mapped_ctrl_not_prompt (l : List String)
    (h : ∀ s ∈ l, strEndsWith s "\r\n" = true) :
    ∀ g ∈ l.map Frame.ctrl, endsWithPrompt g = false := by
  intro g hg
  rw [List.mem_map] at hg
  obtain ⟨s, hs, rfl⟩ := hg
  simpa [endsWithPrompt] using not_prompt_of_endsWith_rn s (h s hs)

/-- A frame list made of non-prompt frames followed by one prompt frame
has exactly one prompt frame, in final position. -/
theorem promptCount_concat (l : List Frame) (f : Frame)
    (h : ∀ g ∈ l, endsWithPrompt g = false) (hf : endsWithPrompt f = true) :
    promptFrameCount (l ++ [f]) = 1 ∧ lastIsPrompt (l ++ [f]) = true := by
  constructor
  · rw [promptFrameCount, List.filter_append]
    have hl : l.filter endsWithPrompt = [] := by
      rw [List.filter_eq_nil_iff]
      intro a ha
      simp [h a ha]
    rw [hl]
    simp [List.filter_cons, hf]
  · rw [lastIsPrompt, List.getLast?_concat]
    simp [hf]

/-- The run banner is not a prompt frame. -/
theorem runBanner_not_prompt (i c : String) :
    endsWithPrompt (Frame.ctrl (runBanner i c)) = false := by
  have h : strEndsWith (runBanner i c) "\r\n" = true := by
    rw [runBanner]
    exact strEndsWith_append_right _ _ _ (by decide)
  simpa [endsWithPrompt] using not_prompt_of_endsWith_rn _ h

/-- The pulling notice is not a prompt frame. -/
theorem pullingNotice_not_prompt (i : String) :
    endsWithPrompt (Frame.ctrl (pullingNotice i)) = false := by
  have h : strEndsWith (pullingNotice i) "\r\n" = true := by
    rw [pullingNotice]
    exact strEndsWith_append_right _ _ _ (by decide)
  simpa [endsWithPrompt] using not_prompt_of_endsWith_rn _ h

/-- The pulled notice is not a prompt frame. -/
theorem pulledNotice_not_prompt (i : String) :
    endsWithPrompt (Frame.ctrl (pulledNotice i)) = false := by
  have h : strEndsWith (pulledNotice i) "\r\n" = true := by
    rw [pulledNotice]
    exact strEndsWith_append_right _ _ _ (by decide)
  simpa [endsWithPrompt] using not_prompt_of_endsWith_rn _ h

/-- The catch block error frame is a prompt frame (the prompt is its
suffix). -/
theorem errorFrame_prompt (m : String) :
    endsWithPrompt (Frame.ctrl (errorFrame m)) = true := by
  simp only [endsWithPrompt, errorFrame]
  exact strEndsWith_append_right _ _ _ (by decide)

/-- The create/exec phase always produces a frame list consisting of
non-prompt frames followed by exactly one final prompt frame. -/
theorem runFromCreate_shape (env : DockerEnv) :
    ∃ l f, (runFromCreate env).frames = l ++ [f] ∧
      (∀ g ∈ l, endsWithPrompt g = false) ∧ endsWithPrompt f = true := by
  obtain ⟨ii, pi, cc, sc, ec, es, xi, st⟩ := env
  cases cc with
  | error e => exact ⟨[], Frame.ctrl (errorFrame e.message), rfl, by simp, errorFrame_prompt _⟩
  | ok id =>
    cases sc with
    | error e => exact ⟨[], Frame.ctrl (errorFrame e.message), rfl, by simp, errorFrame_prompt _⟩
    | ok u =>
      cases ec with
      | error e =>
        exact ⟨[], Frame.ctrl (errorFrame e.message), rfl, by simp, errorFrame_prompt _⟩
      | ok u2 =>
        cases es with
        | error e =>
          exact ⟨[], Frame.ctrl (errorFrame e.message), rfl, by simp, errorFrame_prompt _⟩
        | ok chunks =>
          refine ⟨chunks.map (fun ch => Frame.fwd (forwardChunk ch)), Frame.ctrl promptFrame,
            rfl, ?_, by decide⟩
          intro g hg
          rw [List.mem_map] at hg
          obtain ⟨ch, _, rfl⟩ := hg
          rfl

/-- Every containerized execution, successful or failing at any step,
produces non-prompt frames followed by exactly one final prompt frame. -/
theorem runCommand_frames_shape (env : DockerEnv) (c i : String) :
    ∃ l f, (runCommandInContainer env c i).frames = l ++ [f] ∧
      (∀ g ∈ l, endsWithPrompt g = false) ∧ endsWithPrompt f = true := by
  obtain ⟨lf, ff, hshape, hl, hf⟩ := runFromCreate_shape env
  cases hi : env.inspectImage with
  | ok u =>
    refine ⟨Frame.ctrl (runBanner i c) :: lf, ff, ?_, ?_, hf⟩
    · unfold runCommandInContainer
      simp [hi, hshape]
    · intro g hg
      rcases List.mem_cons.mp hg with rfl | hg
      · exact runBanner_not_prompt i c
      · exact hl g hg
  | error e =>
    by_cases h4 : e.statusCode = some 404
    · cases hp : env.pullImage with
      | ok u =>
        refine ⟨Frame.ctrl (runBanner i c) :: Frame.ctrl (pullingNotice i) ::
          Frame.ctrl (pulledNotice i) :: lf, ff, ?_, ?_, hf⟩
        · unfold runCommandInContainer
          simp [hi, h4, hp, hshape]
        · intro g hg
          rcases List.mem_cons.mp hg with rfl | hg
          · exact runBanner_not_prompt i c
          rcases List.mem_cons.mp hg with rfl | hg
          · exact pullingNotice_not_prompt i
          rcases List.mem_cons.mp hg with rfl | hg
          · exact pulledNotice_not_prompt i
          · exact hl g hg
      | error pe =>
        refine ⟨[Frame.ctrl (runBanner i c), Frame.ctrl (pullingNotice i)],
          Frame.ctrl (errorFrame pe.message), ?_, ?_, errorFrame_prompt _⟩
        · unfold runCommandInContainer
          simp [hi, h4, hp]
        · intro g hg
          rcases List.mem_cons.mp hg with rfl | hg
          · exact runBanner_not_prompt i c
          rcases List.mem_cons.mp hg with rfl | hg
          · exact pullingNotice_not_prompt i
          · simp at hg
    · refine ⟨[Frame.ctrl (runBanner i c)], Frame.ctrl (errorFrame e.message), ?_, ?_,
        errorFrame_prompt _⟩
      · unfold runCommandInContainer
        simp [hi, h4]
      · intro g hg
        rcases List.mem_cons.mp hg with rfl | hg
        · exact runBanner_not_prompt i c
        · simp at hg

/-- C6: every response cycle — containerized success, containerized
failure at any step, simulated execution, or the empty-input no-op — ends
with exactly one prompt frame, in final position. -/
theorem c6_exactly_one_prompt (a : Bool) (env : DockerEnv) (msg : String) :
    promptFrameCount (handleMessage a env msg).frames = 1 ∧
    lastIsPrompt (handleMessage a env msg).frames = true := by
  by_cases hm : jsTrim msg = ""
  · rw [handleMessage, if_pos hm]
    exact promptCount_concat [] (Frame.ctrl promptFrame) (by intro g hg; simp at hg) (by decide)
  · rw [handleMessage, if_neg hm]
    cases a with
    | true =>
      rw [if_pos rfl]
      obtain ⟨l, f, hshape, hl, hf⟩ := runCommand_frames_shape env (jsTrim msg) "node:alpine"
      show promptFrameCount (runCommandInContainer env (jsTrim msg) "node:alpine").frames = 1 ∧
        lastIsPrompt (runCommandInContainer env (jsTrim msg) "node:alpine").frames = true
      rw [hshape]
      exact promptCount_concat l f hl hf
    | false =>
      rw [if_neg (by simp)]
      show promptFrameCount ((executeCommandSimulated (jsTrim msg)).map Frame.ctrl) = 1 ∧
        lastIsPrompt ((executeCommandSimulated (jsTrim msg)).map Frame.ctrl) = true
      have hshape : (executeCommandSimulated (jsTrim msg)).map Frame.ctrl =
          ((simBanner (jsTrim msg) :: simulatedBody (jsTrim msg)).map Frame.ctrl) ++
            [Frame.ctrl promptFrame] := by
        rw [executeCommandSimulated]
        simp
      rw [hshape]
      refine promptCount_concat _ _ ?_ (by decide)
      apply mapped_ctrl_not_prompt
      intro s hs
      rcases List.mem_cons.mp hs with rfl | hs
      · rw [simBanner]
        exact strEndsWith_append_right _ _ _ (by decide)
      · exact simulatedBody_rn (jsTrim msg) s hs
